import Mathlib

/-!
# Game Boy LCD video timing core (`src/gb/video.c`) — shallow embedding

Machine integers are modelled as `Int`/`Nat`; stores into narrower fields
apply the C conversion explicitly (`% 256`, `% 65536`, 32-bit sign fold).
External collaborators (renderer, CPU callbacks, sync/thread handles) carry
no video state: renderer invocations are recorded as a list of `REvent`
values, and host inputs (CPU cycle count, double-speed flag, execution
state, model, HDMA activity) enter through an `Env` record per call.
-/

namespace GBVideo

/-- C `INT_MAX` on 32-bit `int`: the scheduler's "infinity" sentinel. -/
def INT32_MAX : Int := 2147483647

/-- C `INT_MIN` on 32-bit `int`: the "disarmed" sentinel of `dotCounter`. -/
def INT32_MIN : Int := -2147483648

/-- Modelled from the spec: `GB_VIDEO_HORIZONTAL_PIXELS` (gb/video.h is not in
the sources; §6 of the spec fixes the timing constants). -/
def GB_VIDEO_HORIZONTAL_PIXELS : Int := 160

/-- Modelled from the spec: `GB_VIDEO_VERTICAL_PIXELS` (`VPIX = 144`). -/
def GB_VIDEO_VERTICAL_PIXELS : Int := 144

/-- Modelled from the spec: `GB_VIDEO_VERTICAL_TOTAL_PIXELS` (`VTOTAL = 153`). -/
def GB_VIDEO_VERTICAL_TOTAL_PIXELS : Int := 153

/-- Modelled from the spec: `GB_VIDEO_HORIZONTAL_LENGTH` (`HORIZ_LEN = 456`). -/
def GB_VIDEO_HORIZONTAL_LENGTH : Int := 456

/-- Modelled from the spec: `GB_VIDEO_MODE_2_LENGTH` (`MODE2_LEN = 80`). -/
def GB_VIDEO_MODE_2_LENGTH : Int := 80

/-- Modelled from the spec: `GB_VIDEO_MODE_3_LENGTH_BASE` (`MODE3_LEN_BASE = 172`). -/
def GB_VIDEO_MODE_3_LENGTH_BASE : Int := 172

/-- Modelled from the spec: `GB_VIDEO_MODE_0_LENGTH_BASE` (`MODE0_LEN_BASE = 204`). -/
def GB_VIDEO_MODE_0_LENGTH_BASE : Int := 204

/-- Modelled from the spec: `GB_VIDEO_TOTAL_LENGTH` (`TOTAL_LEN = 70224`). -/
def GB_VIDEO_TOTAL_LENGTH : Int := 70224

/-- Modelled from the spec: bit index of the VBlank interrupt in `IF`. -/
def GB_IRQ_VBLANK : Nat := 0

/-- Modelled from the spec: bit index of the LCDSTAT interrupt in `IF`. -/
def GB_IRQ_LCDSTAT : Nat := 1

/-- Modelled from the spec: the CPU execution-state value denoting a fetch
cycle; chosen consistent with the reschedule formula `4 - ((state+1) & 3)`. -/
def LR35902_CORE_FETCH : Nat := 3

/-- Modelled from the spec: DMG model tag (only the ordering DMG < CGB is used). -/
def GB_MODEL_DMG : Nat := 0

/-- Modelled from the spec: CGB model tag. -/
def GB_MODEL_CGB : Nat := 4

/-- Modelled from the spec: LCDC bit 7 is the LCD enable flag. -/
def GBRegisterLCDCIsEnable (lcdc : Nat) : Bool := lcdc.testBit 7

/-- Modelled from the spec: LCDC bit 2 selects 8×16 sprites. -/
def GBRegisterLCDCIsObjSize (lcdc : Nat) : Bool := lcdc.testBit 2

/-- Modelled from the spec: STAT bit 3 is the HBlank IRQ enable. -/
def GBRegisterSTATIsHblankIRQ (stat : Nat) : Bool := stat.testBit 3

/-- Modelled from the spec: STAT bit 4 is the VBlank IRQ enable. -/
def GBRegisterSTATIsVblankIRQ (stat : Nat) : Bool := stat.testBit 4

/-- Modelled from the spec: STAT bit 5 is the OAM IRQ enable. -/
def GBRegisterSTATIsOAMIRQ (stat : Nat) : Bool := stat.testBit 5

/-- Modelled from the spec: STAT bit 6 is the LYC IRQ enable. -/
def GBRegisterSTATIsLYCIRQ (stat : Nat) : Bool := stat.testBit 6

/-- Modelled from the spec: STAT bits 0-1 mirror the mode. -/
def GBRegisterSTATSetMode (stat : Nat) (mode : Nat) : Nat :=
  (stat &&& 0xFC) ||| (mode &&& 3)

/-- Modelled from the spec: STAT bit 2 is the LYC coincidence flag. -/
def GBRegisterSTATSetLYC (stat : Nat) (b : Bool) : Nat :=
  if b then stat ||| 4 else stat &&& 0xFB

/-- Modelled from the spec: IO register addresses used by the video core
(gb/io.h is not in the sources; only their distinctness matters here). -/
def REG_BGP : Nat := 0x47

/-- Modelled from the spec: `OBP0` address. -/
def REG_OBP0 : Nat := 0x48

/-- Modelled from the spec: `OBP1` address. -/
def REG_OBP1 : Nat := 0x49

/-- Modelled from the spec: `BCPS` address. -/
def REG_BCPS : Nat := 0x68

/-- Modelled from the spec: `BCPD` address. -/
def REG_BCPD : Nat := 0x69

/-- Modelled from the spec: `OCPS` address. -/
def REG_OCPS : Nat := 0x6A

/-- Modelled from the spec: `OCPD` address. -/
def REG_OCPD : Nat := 0x6B

/-- Arithmetic right shift of a C signed integer: floor division by `2^k`. -/
def sar (n : Int) (k : Nat) : Int := Int.fdiv n (2 ^ k)

/-- Conversion of a C `int` value to `uint8_t` (reduction mod 256). -/
def toU8 (n : Int) : Nat := (n % 256).toNat

/-- `STORE_16LE` of a C `int`: keep the low 16 bits. -/
def toU16 (n : Int) : Nat := (n % 65536).toNat

/-- `STORE_32LE` of a C `int32_t`: keep the low 32 bits. -/
def toU32 (n : Int) : Nat := (n % 4294967296).toNat

/-- `LOAD_32LE` into a C `int32_t`: reinterpret the low 32 bits as signed. -/
def ofI32 (n : Nat) : Int :=
  if n < 2147483648 then (n : Int) else (n : Int) - 4294967296

/-- One OAM record (`struct GBObj`): y, x, tile, attributes bytes. -/
structure GBObj where
  y : Nat
  x : Nat
  tile : Nat
  attr : Nat
  deriving Repr, DecidableEq

/-- The memory-mapped IO registers the video core reads or writes
(a narrow view of `p->memory.io[]`). -/
structure IORegs where
  lcdc : Nat
  stat : Nat
  scx : Nat
  ly : Nat
  lyc : Nat
  intFlags : Nat
  hdma5 : Nat
  bcps : Nat
  bcpd : Nat
  ocps : Nat
  ocpd : Nat
  deriving Repr, DecidableEq

/-- Host inputs consumed during one call into the core (`video->p` and
`video->p->cpu` fields the core only reads). -/
structure Env where
  cpuCycles : Int
  doubleSpeed : Nat
  executionState : Nat
  model : Nat
  isHdma : Bool
  hasStream : Bool
  deriving Repr, DecidableEq

/-- Renderer and host callbacks the core performs, recorded in order. -/
inductive REvent where
  | writePalette (index : Nat) (value : Nat)
  | drawRange (startX endX y : Int) (objCount : Nat)
  | finishScanline (y : Int)
  | finishFrame
  | fatalLog
  | frameEnded
  | postFrame
  | getPixels
  | postVideoFrame
  | frameStarted
  deriving Repr, DecidableEq

/-- The state of `struct GBVideo`, together with the host fields the core
mutates (`io`, the CPU `nextEvent`, the HDMA kick fields). -/
structure GBVideoState where
  ly : Int
  x : Int
  mode : Nat
  stat : Nat
  nextEvent : Int
  eventDiff : Int
  nextMode : Int
  dotCounter : Int
  nextFrame : Int
  frameCounter : Int
  frameskip : Int
  frameskipCounter : Int
  vram : Nat → Nat
  vramCurrentBank : Nat
  oam : List GBObj
  objThisLine : List GBObj
  objMax : Nat
  palette : List Nat
  bcpIndex : Nat
  ocpIndex : Nat
  bcpIncrement : Bool
  ocpIncrement : Bool
  mem : IORegs
  cpuNextEvent : Int
  hdmaRemaining : Nat
  hdmaNext : Int

/-- Visibility test from `_cleanOAM`: the loop skips the entry when
`y < oy - 16 || y >= oy - 16 + spriteHeight`. -/
def objVisible (y spriteHeight : Int) (oy : Nat) : Bool :=
  !(y < (oy : Int) - 16 || y ≥ (oy : Int) - 16 + spriteHeight)

/-- The scan loop of `_cleanOAM`: walk the OAM entries in index order with
running count `o` of copied entries, stopping once `o` reaches 10. -/
def cleanOAMLoop (y spriteHeight : Int) : List GBObj → Nat → List GBObj
  | [], _ => []
  | ob :: rest, o =>
    if objVisible y spriteHeight ob.y then
      ob :: (if o + 1 == 10 then [] else cleanOAMLoop y spriteHeight rest (o + 1))
    else
      cleanOAMLoop y spriteHeight rest o

/-- `_cleanOAM`: select up to 10 sprites of the configured height visible on
line `y`, in OAM index order; `objMax` is the number selected. -/
def _cleanOAM (v : GBVideoState) (y : Int) : GBVideoState :=
  let spriteHeight : Int := if GBRegisterLCDCIsObjSize v.mem.lcdc then 16 else 8
  let sel := cleanOAMLoop y spriteHeight v.oam 0
  { v with objThisLine := sel, objMax := sel.length }

/-- `GBVideoProcessDots`: resolve the mode-3 dot clock to a horizontal X and
issue the renderer `drawRange` unless frameskipping. -/
def GBVideoProcessDots (env : Env) (v : GBVideoState) : GBVideoState × List REvent :=
  if v.mode ≠ 3 ∨ v.dotCounter < 0 then (v, [])
  else
    let oldX := v.x
    let x0 := v.dotCounter + v.eventDiff + sar env.cpuCycles env.doubleSpeed
    let x1 := if x0 > GB_VIDEO_HORIZONTAL_PIXELS then GB_VIDEO_HORIZONTAL_PIXELS else x0
    let x2 := if x1 < 0 then oldX else x1
    let dc := if x2 = GB_VIDEO_HORIZONTAL_PIXELS then INT32_MIN else v.dotCounter
    ({ v with x := x2, dotCounter := dc },
     (if x1 < 0 then [REvent.fatalLog] else []) ++
     (if v.frameskipCounter ≤ 0 then [REvent.drawRange oldX x2 v.ly v.objMax] else []))

/-- `SCX & 7`: the fine-scroll contribution to the mode-3/mode-2 reloads. -/
def scx7 (v : GBVideoState) : Int := ((v.mem.scx &&& 7 : Nat) : Int)

/-- Raise an interrupt line: `io[REG_IF] |= 1 << irq` (the external
`GBUpdateIRQs` callback carries no video state and is not modelled). -/
def raiseIRQ (v : GBVideoState) (irq : Nat) : GBVideoState :=
  { v with mem := { v.mem with intFlags := v.mem.intFlags ||| (1 <<< irq) } }

/-- `case 0` of the mode switch in `GBVideoProcessEvents`: end of HBlank. -/
def modeZeroStep (v : GBVideoState) : GBVideoState × List REvent :=
  let lyc : Int := (v.mem.lyc : Int)
  let evs0 : List REvent := if v.frameskipCounter ≤ 0 then [.finishScanline v.ly] else []
  let ly := v.ly + 1
  let v := { v with ly := ly, mem := { v.mem with ly := toU8 ly } }
  let v := { v with stat := GBRegisterSTATSetLYC v.stat (lyc == ly) }
  if ly < GB_VIDEO_VERTICAL_PIXELS then
    let v := { v with nextMode := GB_VIDEO_MODE_2_LENGTH + scx7 v, mode := 2 }
    let v := if !GBRegisterSTATIsHblankIRQ v.stat && GBRegisterSTATIsOAMIRQ v.stat
      then raiseIRQ v GB_IRQ_LCDSTAT else v
    let v := if GBRegisterSTATIsLYCIRQ v.stat && (lyc == ly)
      then raiseIRQ v GB_IRQ_LCDSTAT else v
    (v, evs0)
  else
    let v := { v with nextMode := GB_VIDEO_HORIZONTAL_LENGTH, mode := 1 }
    let v := if v.nextFrame ≠ 0 then { v with nextFrame := 0 } else v
    let v := if GBRegisterSTATIsVblankIRQ v.stat || GBRegisterSTATIsOAMIRQ v.stat
      then raiseIRQ v GB_IRQ_LCDSTAT else v
    let v := raiseIRQ v GB_IRQ_VBLANK
    let v := if GBRegisterSTATIsLYCIRQ v.stat && (lyc == ly)
      then raiseIRQ v GB_IRQ_LCDSTAT else v
    (v, evs0)

/-- `case 1` of the mode switch: VBlank line progression and frame wrap. -/
def modeOneStep (v : GBVideoState) : GBVideoState × List REvent :=
  let lyc : Int := (v.mem.lyc : Int)
  let ly := v.ly + 1
  if ly = GB_VIDEO_VERTICAL_TOTAL_PIXELS + 1 then
    let v := { v with ly := 0, mem := { v.mem with ly := 0 } }
    let v := { v with nextMode := GB_VIDEO_MODE_2_LENGTH + scx7 v, mode := 2 }
    let v := if GBRegisterSTATIsOAMIRQ v.stat then raiseIRQ v GB_IRQ_LCDSTAT else v
    (v, [REvent.finishFrame])
  else
    let v := { v with ly := ly }
    let v :=
      if ly = GB_VIDEO_VERTICAL_TOTAL_PIXELS then
        { v with mem := { v.mem with ly := 0 },
                 nextMode := GB_VIDEO_HORIZONTAL_LENGTH - 8 }
      else if ly = GB_VIDEO_VERTICAL_TOTAL_PIXELS - 1 then
        { v with mem := { v.mem with ly := toU8 ly }, nextMode := 8 }
      else
        { v with mem := { v.mem with ly := toU8 ly },
                 nextMode := GB_VIDEO_HORIZONTAL_LENGTH }
    let v := { v with stat := GBRegisterSTATSetLYC v.stat (lyc == (v.mem.ly : Int)) }
    let v := if GBRegisterSTATIsLYCIRQ v.stat && (lyc == (v.mem.ly : Int))
      then raiseIRQ v GB_IRQ_LCDSTAT else v
    (v, [])

/-- `case 2` of the mode switch: OAM scan done, enter mode 3. -/
def modeTwoStep (v : GBVideoState) : GBVideoState × List REvent :=
  let v := _cleanOAM v v.ly
  ({ v with dotCounter := 0, nextEvent := GB_VIDEO_HORIZONTAL_LENGTH, x := 0,
            nextMode := GB_VIDEO_MODE_3_LENGTH_BASE + (v.objMax : Int) * 11 - scx7 v,
            mode := 3 }, [])

/-- `case 3` of the mode switch: draw done, enter HBlank, kick HDMA. -/
def modeThreeStep (env : Env) (v : GBVideoState) : GBVideoState × List REvent :=
  let v := { v with nextMode := GB_VIDEO_MODE_0_LENGTH_BASE - (v.objMax : Int) * 11,
                    mode := 0 }
  let v := if GBRegisterSTATIsHblankIRQ v.stat then raiseIRQ v GB_IRQ_LCDSTAT else v
  let v := if v.ly < GB_VIDEO_VERTICAL_PIXELS ∧ env.isHdma ∧ v.mem.hdma5 ≠ 0xFF
    then { v with hdmaRemaining := 0x10, hdmaNext := env.cpuCycles } else v
  (v, [])

/-- The `switch (video->mode)` dispatch. -/
def modeDispatch (env : Env) (v : GBVideoState) : GBVideoState × List REvent :=
  match v.mode with
  | 0 => modeZeroStep v
  | 1 => modeOneStep v
  | 2 => modeTwoStep v
  | 3 => modeThreeStep env v
  | _ => (v, [])

/-- The `if (video->nextMode <= 0)` block: run the mode switch, then mirror
the mode into STAT and `io[REG_STAT]`. -/
def modeStep (env : Env) (v : GBVideoState) : GBVideoState × List REvent :=
  if v.nextMode ≤ 0 then
    let d := modeDispatch env v
    let s := GBRegisterSTATSetMode d.1.stat d.1.mode
    ({ d.1 with stat := s, mem := { d.1.mem with stat := s } }, d.2)
  else (v, [])

/-- The `if (video->nextFrame <= 0)` block: frame tick, aligned to a CPU
fetch cycle, with frameskip bookkeeping and stream output. -/
def frameStep (env : Env) (v : GBVideoState) : GBVideoState × List REvent :=
  if v.nextFrame ≤ 0 then
    if env.executionState = LR35902_CORE_FETCH then
      let a := { v with nextFrame := GB_VIDEO_TOTAL_LENGTH,
                        nextEvent := GB_VIDEO_TOTAL_LENGTH,
                        frameskipCounter := v.frameskipCounter - 1 }
      let b := if a.frameskipCounter < 0 then { a with frameskipCounter := a.frameskip }
               else a
      ({ b with frameCounter := b.frameCounter + 1 },
       [REvent.frameEnded] ++
       (if a.frameskipCounter < 0 then [REvent.postFrame] else []) ++
       (if env.hasStream then [REvent.getPixels, REvent.postVideoFrame] else []) ++
       [REvent.frameStarted])
    else
      let nf : Int := 4 - (((env.executionState + 1) &&& 3 : Nat) : Int)
      let a := { v with nextFrame := nf }
      (if nf < a.nextEvent then { a with nextEvent := nf } else a, [])
  else (v, [])

/-- The tail of the fired branch: `nextEvent = min(nextEvent, nextMode)` and
`eventDiff = 0`. -/
def finishFired (v : GBVideoState) : GBVideoState :=
  let a := if v.nextMode < v.nextEvent then { v with nextEvent := v.nextMode } else v
  { a with eventDiff := 0 }

/-- `GBVideoProcessEvents`: advance the core by a signed cycle delta; returns
the new state, the recorded callbacks, and the returned next deadline. -/
def GBVideoProcessEvents (env : Env) (v0 : GBVideoState) (cycles : Int) :
    GBVideoState × List REvent × Int :=
  let v1 := { v0 with
    eventDiff := v0.eventDiff + cycles,
    nextEvent := if v0.nextEvent ≠ INT32_MAX then v0.nextEvent - cycles
                 else v0.nextEvent }
  if v1.nextEvent ≤ 0 then
    let v2 := { v1 with
      nextMode := if v1.nextMode ≠ INT32_MAX then v1.nextMode - v1.eventDiff
                  else v1.nextMode,
      nextFrame := if v1.nextFrame ≠ INT32_MAX then v1.nextFrame - v1.eventDiff
                   else v1.nextFrame,
      nextEvent := INT32_MAX }
    let d := GBVideoProcessDots env v2
    let m := modeStep env d.1
    let f := frameStep env m.1
    let r := finishFired f.1
    (r, d.2 ++ m.2 ++ f.2, r.nextEvent)
  else (v1, [], v1.nextEvent)

/-- `GBVideoWriteLCDC`: edge-detect LCD enable/disable against the currently
stored LCDC byte (the IO layer stores the new byte afterwards). -/
def GBVideoWriteLCDC (env : Env) (v : GBVideoState) (value : Nat) : GBVideoState :=
  if !GBRegisterLCDCIsEnable v.mem.lcdc && GBRegisterLCDCIsEnable value then
    let v := { v with mode := 2,
                      nextMode := GB_VIDEO_MODE_2_LENGTH - 5,
                      nextEvent := GB_VIDEO_MODE_2_LENGTH - 5,
                      eventDiff := sar (- env.cpuCycles) env.doubleSpeed,
                      ly := 0 }
    let v := { v with mem := { v.mem with ly := 0 } }
    let v := { v with stat := GBRegisterSTATSetMode v.stat 2 }
    let v := { v with stat := GBRegisterSTATSetLYC v.stat (v.ly == (v.mem.lyc : Int)) }
    let v := if GBRegisterSTATIsLYCIRQ v.stat && (v.ly == (v.mem.lyc : Int))
      then raiseIRQ v GB_IRQ_LCDSTAT else v
    let v := { v with mem := { v.mem with stat := v.stat } }
    if env.cpuCycles + v.nextEvent * 2 ^ env.doubleSpeed < v.cpuNextEvent
    then { v with cpuNextEvent := env.cpuCycles + v.nextEvent * 2 ^ env.doubleSpeed }
    else v
  else if GBRegisterLCDCIsEnable v.mem.lcdc && !GBRegisterLCDCIsEnable value then
    let v := { v with mode := 0, nextMode := INT32_MAX, nextEvent := v.nextFrame }
    let v := { v with stat := GBRegisterSTATSetMode v.stat 0 }
    let v := { v with mem := { v.mem with stat := v.stat } }
    { v with ly := 0, mem := { v.mem with ly := 0 } }
  else v

/-- `GBVideoWriteSTAT`: keep the low 3 bits, replace bits 3-6; DMG quirk
raises LCDSTAT on any STAT write during mode 1. -/
def GBVideoWriteSTAT (env : Env) (v : GBVideoState) (value : Nat) : GBVideoState :=
  let v := { v with stat := (v.stat &&& 0x7) ||| (value &&& 0x78) }
  if env.model = GB_MODEL_DMG ∧ v.mode = 1 then raiseIRQ v GB_IRQ_LCDSTAT else v

/-- `GBVideoWriteLYC`: during mode 2 only, re-evaluate coincidence. -/
def GBVideoWriteLYC (v : GBVideoState) (value : Nat) : GBVideoState :=
  if v.mode = 2 then
    let v := { v with stat := GBRegisterSTATSetLYC v.stat (((value : Int)) == v.ly) }
    if GBRegisterSTATIsLYCIRQ v.stat && (((value : Int)) == v.ly)
    then raiseIRQ v GB_IRQ_LCDSTAT else v
  else v

/-- The four hard-coded DMG shades. -/
def dmgPalette : List Nat := [0x7FFF, 0x56B5, 0x294A, 0x0000]

/-- `GBVideoWritePalette`: DMG palette decode or CGB palette-RAM byte write,
with the renderer `writePalette` callbacks recorded. -/
def GBVideoWritePalette (env : Env) (v : GBVideoState) (address : Nat) (value0 : Nat) :
    GBVideoState × List REvent :=
  let value := value0 % 256
  if env.model < GB_MODEL_CGB then
    if address = REG_BGP then
      let c0 := dmgPalette.getD (value &&& 3) 0
      let c1 := dmgPalette.getD ((value >>> 2) &&& 3) 0
      let c2 := dmgPalette.getD ((value >>> 4) &&& 3) 0
      let c3 := dmgPalette.getD ((value >>> 6) &&& 3) 0
      ({ v with palette := (((v.palette.set 0 c0).set 1 c1).set 2 c2).set 3 c3 },
       [.writePalette 0 c0, .writePalette 1 c1, .writePalette 2 c2, .writePalette 3 c3])
    else if address = REG_OBP0 then
      let c0 := dmgPalette.getD (value &&& 3) 0
      let c1 := dmgPalette.getD ((value >>> 2) &&& 3) 0
      let c2 := dmgPalette.getD ((value >>> 4) &&& 3) 0
      let c3 := dmgPalette.getD ((value >>> 6) &&& 3) 0
      ({ v with palette := (((v.palette.set (8*4+0) c0).set (8*4+1) c1).set (8*4+2) c2).set (8*4+3) c3 },
       [.writePalette (8*4+0) c0, .writePalette (8*4+1) c1,
        .writePalette (8*4+2) c2, .writePalette (8*4+3) c3])
    else if address = REG_OBP1 then
      let c0 := dmgPalette.getD (value &&& 3) 0
      let c1 := dmgPalette.getD ((value >>> 2) &&& 3) 0
      let c2 := dmgPalette.getD ((value >>> 4) &&& 3) 0
      let c3 := dmgPalette.getD ((value >>> 6) &&& 3) 0
      ({ v with palette := (((v.palette.set (9*4+0) c0).set (9*4+1) c1).set (9*4+2) c2).set (9*4+3) c3 },
       [.writePalette (9*4+0) c0, .writePalette (9*4+1) c1,
        .writePalette (9*4+2) c2, .writePalette (9*4+3) c3])
    else (v, [])
  else
    if address = REG_BCPD then
      let old := v.palette.getD (v.bcpIndex >>> 1) 0
      let newc := if v.bcpIndex &&& 1 = 1 then (old &&& 0x00FF) ||| (value <<< 8)
                  else (old &&& 0xFF00) ||| value
      let v := { v with palette := v.palette.set (v.bcpIndex >>> 1) newc }
      let evs := [REvent.writePalette (v.bcpIndex >>> 1) newc]
      let v := if v.bcpIncrement then
          let idx := (v.bcpIndex + 1) &&& 0x3F
          { v with bcpIndex := idx,
                   mem := { v.mem with bcps := (v.mem.bcps &&& 0x80) ||| idx } }
        else v
      ({ v with mem := { v.mem with
           bcpd := (v.palette.getD (v.bcpIndex >>> 1) 0 >>> (8 * (v.bcpIndex &&& 1))) % 256 } },
       evs)
    else if address = REG_OCPD then
      let old := v.palette.getD (8*4 + (v.ocpIndex >>> 1)) 0
      let newc := if v.ocpIndex &&& 1 = 1 then (old &&& 0x00FF) ||| (value <<< 8)
                  else (old &&& 0xFF00) ||| value
      let v := { v with palette := v.palette.set (8*4 + (v.ocpIndex >>> 1)) newc }
      let evs := [REvent.writePalette (8*4 + (v.ocpIndex >>> 1)) newc]
      let v := if v.ocpIncrement then
          let idx := (v.ocpIndex + 1) &&& 0x3F
          { v with ocpIndex := idx,
                   mem := { v.mem with ocps := (v.mem.ocps &&& 0x80) ||| idx } }
        else v
      ({ v with mem := { v.mem with
           ocpd := (v.palette.getD (8*4 + (v.ocpIndex >>> 1)) 0 >>> (8 * (v.ocpIndex &&& 1))) % 256 } },
       evs)
    else (v, [])

/-- `GBVideoSwitchBank`: select one of the two 8 KiB VRAM banks (the bank
pointer view is represented by the recorded bank index). -/
def GBVideoSwitchBank (v : GBVideoState) (value : Nat) : GBVideoState :=
  { v with vramCurrentBank := value &&& 1 }

/-- `GBVideoReset`: post-reset state; a fresh zero-filled VRAM mapping,
bank 0, zeroed OAM and palette (renderer deinit/init hooks are no-ops). -/
def GBVideoReset (v : GBVideoState) : GBVideoState :=
  { v with ly := 0, x := 0, mode := 1, stat := 1,
           nextEvent := INT32_MAX, eventDiff := 0,
           nextMode := INT32_MAX, dotCounter := INT32_MIN, nextFrame := INT32_MAX,
           frameCounter := 0, frameskipCounter := 0,
           vram := fun _ => 0, vramCurrentBank := 0,
           oam := List.replicate 40 ⟨0, 0, 0, 0⟩,
           palette := List.replicate 64 0 }

/-- The video portion of `struct GBSerializedState` (plus the vram and oam
payloads), with multi-byte fields held as their little-endian raw values. -/
structure GBSerializedVideoState where
  x : Nat
  ly : Nat
  nextEvent : Nat
  eventDiff : Nat
  nextMode : Nat
  dotCounter : Nat
  frameCounter : Nat
  vramCurrentBank : Nat
  flags : Nat
  bcpIndex : Nat
  ocpIndex : Nat
  palette : List Nat
  vram : Nat → Nat
  oam : List GBObj

/-- Modelled from the spec: the packed `GBSerializedVideoFlags` byte
(gb/serialize.h is not in the sources): bit 0 `bcpIncrement`, bit 1
`ocpIncrement`, bits 2-3 `mode`. -/
def packVideoFlags (bcpInc ocpInc : Bool) (mode : Nat) : Nat :=
  (if bcpInc then 1 else 0) ||| (if ocpInc then 2 else 0) ||| ((mode &&& 3) <<< 2)

/-- `GBVideoSerialize`: store the fixed-layout snapshot. -/
def GBVideoSerialize (v : GBVideoState) : GBSerializedVideoState :=
  { x := toU16 v.x, ly := toU16 v.ly,
    nextEvent := toU32 v.nextEvent, eventDiff := toU32 v.eventDiff,
    nextMode := toU32 v.nextMode, dotCounter := toU32 v.dotCounter,
    frameCounter := toU32 v.frameCounter,
    vramCurrentBank := v.vramCurrentBank % 256,
    flags := packVideoFlags v.bcpIncrement v.ocpIncrement v.mode,
    bcpIndex := v.bcpIndex % 65536, ocpIndex := v.ocpIndex % 65536,
    palette := (List.range 64).map (fun i => v.palette.getD i 0 % 65536),
    vram := v.vram, oam := v.oam }

/-- `GBVideoDeserialize`: load the snapshot, mask the palette cursors to
6 bits, re-emit every palette entry through the renderer, re-scan OAM for
the current line and re-bind the VRAM bank. -/
def GBVideoDeserialize (v : GBVideoState) (st : GBSerializedVideoState) :
    GBVideoState × List REvent :=
  let v := { v with
    x := ((st.x % 65536 : Nat) : Int), ly := ((st.ly % 65536 : Nat) : Int),
    nextEvent := ofI32 (st.nextEvent % 4294967296),
    eventDiff := ofI32 (st.eventDiff % 4294967296),
    nextMode := ofI32 (st.nextMode % 4294967296),
    dotCounter := ofI32 (st.dotCounter % 4294967296),
    frameCounter := ofI32 (st.frameCounter % 4294967296),
    vramCurrentBank := st.vramCurrentBank % 256,
    bcpIncrement := st.flags.testBit 0,
    ocpIncrement := st.flags.testBit 1,
    mode := (st.flags >>> 2) &&& 3,
    bcpIndex := (st.bcpIndex % 65536) &&& 0x3F,
    ocpIndex := (st.ocpIndex % 65536) &&& 0x3F,
    palette := (List.range 64).map (fun i => st.palette.getD i 0 % 65536),
    vram := st.vram, oam := st.oam }
  let evs := (List.range 64).map (fun i => REvent.writePalette i (st.palette.getD i 0 % 65536))
  let v := _cleanOAM v v.ly
  let v := GBVideoSwitchBank v v.vramCurrentBank
  (v, evs)

/-- One externally driven operation on the core: a `processEvents` call, a
register write (with the IO layer's store of the written byte, per §4.5 of
the spec), a bank switch, a savestate load, or a host OAM byte-record write
(OAM is written through the memory bus, §5 of the spec). -/
inductive Op where
  | pe (env : Env) (cycles : Int)
  | lcdcWrite (env : Env) (value : Nat)
  | statWrite (env : Env) (value : Nat)
  | lycWrite (value : Nat)
  | palWrite (env : Env) (address : Nat) (value : Nat)
  | bankSwitch (value : Nat)
  | loadState (st : GBSerializedVideoState)
  | oamPoke (i : Nat) (ob : GBObj)

/-- Apply one operation. -/
def runOp (v : GBVideoState) : Op → GBVideoState
  | .pe env c => (GBVideoProcessEvents env v c).1
  | .lcdcWrite env value =>
      let w := GBVideoWriteLCDC env v value
      { w with mem := { w.mem with lcdc := value % 256 } }
  | .statWrite env value => GBVideoWriteSTAT env v value
  | .lycWrite value =>
      let w := GBVideoWriteLYC v value
      { w with mem := { w.mem with lyc := value % 256 } }
  | .palWrite env a val => (GBVideoWritePalette env v a val).1
  | .bankSwitch value => GBVideoSwitchBank v value
  | .loadState st => (GBVideoDeserialize v st).1
  | .oamPoke i ob => { v with oam := v.oam.set i ob }

/-- A concrete all-zero host/video state to reset from. -/
def initCore : GBVideoState :=
  { ly := 0, x := 0, mode := 0, stat := 0, nextEvent := 0, eventDiff := 0,
    nextMode := 0, dotCounter := 0, nextFrame := 0, frameCounter := 0,
    frameskip := 0, frameskipCounter := 0, vram := fun _ => 0,
    vramCurrentBank := 0, oam := List.replicate 40 ⟨0, 0, 0, 0⟩,
    objThisLine := [], objMax := 0, palette := List.replicate 64 0,
    bcpIndex := 0, ocpIndex := 0, bcpIncrement := false, ocpIncrement := false,
    mem := { lcdc := 0, stat := 0, scx := 0, ly := 0, lyc := 0, intFlags := 0,
             hdma5 := 0, bcps := 0, bcpd := 0, ocps := 0, ocpd := 0 },
    cpuNextEvent := 0, hdmaRemaining := 0, hdmaNext := 0 }

/-- Run a list of operations from the post-reset core. -/
def runTrace (ops : List Op) : GBVideoState := ops.foldl runOp (GBVideoReset initCore)

/-- A state of the core reachable from reset through the public interface. -/
def Reachable (s : GBVideoState) : Prop := ∃ ops : List Op, runTrace ops = s

/-- Iterate `GBVideoProcessEvents` over a list of (host inputs, cycle delta)
pairs. -/
def runPE (v : GBVideoState) : List (Env × Int) → GBVideoState
  | [] => v
  | s :: rest => runPE (GBVideoProcessEvents s.1 v s.2).1 rest

/-- `a ≤ b` with `INT32_MAX` on the right read as infinity. -/
def leInfty (a b : Int) : Prop := b = INT32_MAX ∨ a ≤ b

instance leInftyDec (a b : Int) : Decidable (leInfty a b) :=
  inferInstanceAs (Decidable (b = INT32_MAX ∨ a ≤ b))

/-- The LCD-disabled configuration left by `GBVideoWriteLCDC` on an ON→OFF
edge. -/
def LCDOff (w : GBVideoState) : Prop :=
  w.mode = 0 ∧ w.nextMode = INT32_MAX ∧ w.ly = 0

/-- A host environment on a fetch cycle, DMG, single speed. -/
def envFetch : Env :=
  { cpuCycles := 0, doubleSpeed := 0, executionState := LR35902_CORE_FETCH,
    model := GB_MODEL_DMG, isHdma := false, hasStream := false }

/-- A host environment with an odd CPU cycle count in double-speed mode. -/
def envOdd : Env :=
  { cpuCycles := 1, doubleSpeed := 1, executionState := LR35902_CORE_FETCH,
    model := GB_MODEL_DMG, isHdma := false, hasStream := false }

/-- A CGB host environment. -/
def envCgb : Env :=
  { cpuCycles := 0, doubleSpeed := 0, executionState := LR35902_CORE_FETCH,
    model := GB_MODEL_CGB, isHdma := false, hasStream := false }

/-- A savestate payload placing the core at the end of line 143's HBlank
with the mode timer due in one cycle. -/
def stLine143 : GBSerializedVideoState :=
  { x := 0, ly := 143, nextEvent := 1, eventDiff := 0, nextMode := 1,
    dotCounter := 2147483648, frameCounter := 0, vramCurrentBank := 0,
    flags := 0, bcpIndex := 0, ocpIndex := 0,
    palette := List.replicate 64 0, vram := fun _ => 0,
    oam := List.replicate 40 ⟨0, 0, 0, 0⟩ }

/-- Reset, load `stLine143`, then fire the pending HBlank expiry: the core
enters VBlank and arms the frame timer (`nextFrame = 70224`). -/
def opsLate : List Op := [Op.loadState stLine143, Op.pe envFetch 1]

/-- The reachable state driven by `opsLate`. -/
def sLate : GBVideoState := runTrace opsLate

/-- A mid-frame serialized core for the round-trip claims: VBlank line 100
with a pending finite frame deadline. -/
def vMidFrame : GBVideoState :=
  { initCore with ly := 100, mode := 1, nextFrame := 456, nextEvent := 10,
                  nextMode := 20, eventDiff := 3, dotCounter := INT32_MIN }

/-- CGB core with `BCPS = 0x80`: auto-increment on, palette cursor 0. -/
def s5a : GBVideoState :=
  { initCore with bcpIncrement := true, bcpIndex := 0,
                  mem := { initCore.mem with bcps := 0x80 } }

/-- After `BCPD ← 0x34`. -/
def s5b : GBVideoState := (GBVideoWritePalette envCgb s5a REG_BCPD 0x34).1

/-- After `BCPD ← 0x34, 0x12`. -/
def s5c : GBVideoState := (GBVideoWritePalette envCgb s5b REG_BCPD 0x12).1

/-- After `BCPD ← 0x34, 0x12, 0xFF`. -/
def s5d : GBVideoState := (GBVideoWritePalette envCgb s5c REG_BCPD 0xFF).1

/-- Scenario S5 outcome: `palette[0] = 0x1234`, `palette[1]` low byte `0xFF`,
`bcpIndex = 3`. -/
def C4Scenario : Prop :=
  s5d.palette.getD 0 0 = 0x1234 ∧ s5d.palette.getD 1 0 &&& 0xFF = 0xFF ∧
  s5d.bcpIndex = 3

/-- Round-trip outcome of serializing `v` and deserializing into a fresh
post-reset core built over `w`: the serialized timing and memory fields are
restored, `nextFrame` keeps the fresh core's `INT32_MAX`, and the renderer
receives exactly 64 `writePalette` callbacks. -/
def C1Post (w v : GBVideoState) : Prop :=
  let st := GBVideoSerialize v
  let r := (GBVideoDeserialize (GBVideoReset w) st).1
  r.ly = v.ly ∧ r.mode = v.mode ∧ r.nextEvent = v.nextEvent ∧
  r.nextMode = v.nextMode ∧ r.eventDiff = v.eventDiff ∧
  r.dotCounter = v.dotCounter ∧ r.palette = v.palette ∧ r.vram = v.vram ∧
  r.oam = v.oam ∧ r.nextFrame = INT32_MAX ∧
  (GBVideoDeserialize (GBVideoReset w) st).2.length = 64 ∧
  ∀ e ∈ (GBVideoDeserialize (GBVideoReset w) st).2, ∃ i c, e = REvent.writePalette i c

/-- Effects of an OFF→ON `writeLCDC` edge, with `eventDiff` given by the
arithmetic shift of the negated cycle count. -/
def C2Post (env : Env) (v : GBVideoState) (value : Nat) : Prop :=
  let r := GBVideoWriteLCDC env v value
  r.mode = 2 ∧ r.nextMode = GB_VIDEO_MODE_2_LENGTH - 5 ∧
  r.nextEvent = r.nextMode ∧ r.ly = 0 ∧ r.mem.ly = 0 ∧
  r.stat &&& 3 = 2 ∧ r.stat.testBit 2 = (v.mem.lyc == 0) ∧
  r.mem.stat = r.stat ∧
  r.mem.intFlags = (if GBRegisterSTATIsLYCIRQ v.stat && (v.mem.lyc == 0)
    then v.mem.intFlags ||| (1 <<< GB_IRQ_LCDSTAT) else v.mem.intFlags) ∧
  r.eventDiff = sar (- env.cpuCycles) env.doubleSpeed

/-- Effects of one CGB `BCPD` byte write. -/
def C4Post (env : Env) (v : GBVideoState) (value0 : Nat) : Prop :=
  let value := value0 % 256
  let i := v.bcpIndex >>> 1
  let old := v.palette.getD i 0
  let newc := if v.bcpIndex &&& 1 = 1 then (old &&& 0x00FF) ||| (value <<< 8)
              else (old &&& 0xFF00) ||| value
  let r := GBVideoWritePalette env v REG_BCPD value0
  r.1.palette = v.palette.set i newc ∧
  (v.bcpIndex &&& 1 = 1 → newc >>> 8 = value ∧ newc &&& 0xFF = old &&& 0xFF) ∧
  (v.bcpIndex &&& 1 = 0 → newc &&& 0xFF = value ∧ newc >>> 8 = (old &&& 0xFF00) >>> 8) ∧
  r.2 = [REvent.writePalette i newc] ∧
  (v.bcpIncrement = true →
     r.1.bcpIndex = (v.bcpIndex + 1) % 64 ∧
     r.1.mem.bcps = (v.mem.bcps &&& 0x80) ||| r.1.bcpIndex ∧
     r.1.mem.bcps % 64 = r.1.bcpIndex ∧
     r.1.mem.bcps.testBit 7 = v.mem.bcps.testBit 7) ∧
  (v.bcpIncrement = false → r.1.bcpIndex = v.bcpIndex ∧ r.1.mem.bcps = v.mem.bcps) ∧
  r.1.mem.bcpd = (r.1.palette.getD (r.1.bcpIndex >>> 1) 0 >>> (8 * (r.1.bcpIndex &&& 1))) % 256

/-- Effects of one `GBVideoProcessDots` resolution in mode 3 with an armed
dot counter. -/
def C6Post (env : Env) (v : GBVideoState) : Prop :=
  let computed := v.dotCounter + v.eventDiff + sar env.cpuCycles env.doubleSpeed
  let r := GBVideoProcessDots env v
  (r.1.x = if computed > GB_VIDEO_HORIZONTAL_PIXELS then GB_VIDEO_HORIZONTAL_PIXELS
           else if computed < 0 then v.x else computed) ∧
  (computed < 0 → r.1.x = v.x ∧ REvent.fatalLog ∈ r.2 ∧
     (v.x ≠ GB_VIDEO_HORIZONTAL_PIXELS → r.1 = v)) ∧
  (r.1.x = GB_VIDEO_HORIZONTAL_PIXELS → r.1.dotCounter = INT32_MIN) ∧
  (REvent.drawRange v.x r.1.x v.ly v.objMax ∈ r.2 ↔ v.frameskipCounter ≤ 0) ∧
  (0 ≤ v.x → v.x ≤ GB_VIDEO_HORIZONTAL_PIXELS →
     0 ≤ r.1.x ∧ r.1.x ≤ GB_VIDEO_HORIZONTAL_PIXELS)

/-- Behaviour after an ON→OFF `writeLCDC` edge: the disabled configuration,
and its preservation (with no VBlank or LCDSTAT raise) under any sequence of
`processEvents` calls. -/
def C7Post (env : Env) (v : GBVideoState) (value : Nat) : Prop :=
  let w := GBVideoWriteLCDC env v value
  w.ly = 0 ∧ w.mode = 0 ∧ w.nextMode = INT32_MAX ∧
  ∀ steps : List (Env × Int),
    (runPE w steps).ly = 0 ∧ (runPE w steps).mode = 0 ∧
    (runPE w steps).mem.intFlags.testBit GB_IRQ_VBLANK
      = w.mem.intFlags.testBit GB_IRQ_VBLANK ∧
    (runPE w steps).mem.intFlags.testBit GB_IRQ_LCDSTAT
      = w.mem.intFlags.testBit GB_IRQ_LCDSTAT

/-- Mode-0 expiry onto a visible line: mode 2 entered, and the LCDSTAT line
raised exactly per the `!HBLANK_IRQ && OAM_IRQ` quirk, plus LYC coincidence. -/
def C8Post (env : Env) (v : GBVideoState) (cycles : Int) : Prop :=
  let r := (GBVideoProcessEvents env v cycles).1
  r.mode = 2 ∧
  r.mem.intFlags.testBit GB_IRQ_LCDSTAT =
    (v.mem.intFlags.testBit GB_IRQ_LCDSTAT ||
     (!GBRegisterSTATIsHblankIRQ v.stat && GBRegisterSTATIsOAMIRQ v.stat) ||
     (GBRegisterSTATIsLYCIRQ v.stat && ((v.mem.lyc : Int) == v.ly + 1)))

/-- Palette-cursor bounds: the CGB paths of `writePalette` only address
`palette[0..64)`, and the cursors stay in `[0, 63]`. -/
def C9Post (env : Env) (v : GBVideoState) (address value : Nat) : Prop :=
  v.bcpIndex >>> 1 < 64 ∧ 8 * 4 + (v.ocpIndex >>> 1) < 64 ∧
  (GBVideoWritePalette env v address value).1.bcpIndex < 64 ∧
  (GBVideoWritePalette env v address value).1.ocpIndex < 64 ∧
  ∀ (w : GBVideoState) (st : GBSerializedVideoState),
    (GBVideoDeserialize w st).1.bcpIndex < 64 ∧
    (GBVideoDeserialize w st).1.ocpIndex < 64

/-- Post-reset configuration and quiescence: every subsequent
`processEvents` call returns `INT32_MAX` and changes no observable mode,
line or interrupt state until a register write arms the schedule. -/
def C10Post (v : GBVideoState) : Prop :=
  (GBVideoReset v).mode = 1 ∧ (GBVideoReset v).stat = 1 ∧
  (GBVideoReset v).ly = 0 ∧ (GBVideoReset v).x = 0 ∧
  (GBVideoReset v).frameCounter = 0 ∧
  (GBVideoReset v).nextEvent = INT32_MAX ∧ (GBVideoReset v).nextMode = INT32_MAX ∧
  (GBVideoReset v).nextFrame = INT32_MAX ∧ (GBVideoReset v).dotCounter = INT32_MIN ∧
  (GBVideoReset v).oam = List.replicate 40 ⟨0, 0, 0, 0⟩ ∧
  (GBVideoReset v).palette = List.replicate 64 0 ∧
  ∀ steps : List (Env × Int),
    let r := runPE (GBVideoReset v) steps
    r.nextEvent = INT32_MAX ∧ r.mode = 1 ∧ r.ly = 0 ∧ r.stat = 1 ∧
    r.mem.intFlags = v.mem.intFlags ∧ r.nextMode = INT32_MAX ∧
    r.nextFrame = INT32_MAX ∧
    ∀ (env : Env) (cycles : Int),
      (GBVideoProcessEvents env r cycles).2.2 = INT32_MAX

/-- A core with the LCD currently enabled (`LCDC = 0x80` stored). -/
def vOn : GBVideoState :=
  { initCore with mem := { initCore.mem with lcdc := 0x80 } }

/-- A core in mode 3 with the dot counter armed. -/
def vMode3 : GBVideoState := { initCore with mode := 3, dotCounter := 0, x := 0 }

/-- A core at the end of an HBlank on line 10, both deadlines due in 4. -/
def vHb : GBVideoState :=
  { initCore with mode := 0, nextEvent := 4, nextMode := 4, ly := 10 }

theorem pe_intmax (env : Env) (v : GBVideoState) (cycles : Int)
    (h : v.nextEvent = INT32_MAX) :
    GBVideoProcessEvents env v cycles
      = ({ v with eventDiff := v.eventDiff + cycles }, [], INT32_MAX) := by
  unfold GBVideoProcessEvents
  simp only [h, ne_eq, not_true_eq_false, if_false, ite_false]
  rw [if_neg (by unfold INT32_MAX; omega)]

theorem processDots_skip (env : Env) (v : GBVideoState)
    (h : v.mode ≠ 3 ∨ v.dotCounter < 0) :
    GBVideoProcessDots env v = (v, []) := by
  unfold GBVideoProcessDots
  rw [if_pos h]

theorem modeStep_skip (env : Env) (v : GBVideoState) (h : ¬ v.nextMode ≤ 0) :
    modeStep env v = (v, []) := by
  unfold modeStep
  rw [if_neg h]

theorem finishFired_le (v : GBVideoState) :
    (finishFired v).nextEvent ≤ (finishFired v).nextMode := by
  unfold finishFired
  split
  · simp
  · simp
    omega

theorem finishFired_proj (v : GBVideoState) :
    (finishFired v).mode = v.mode ∧ (finishFired v).ly = v.ly ∧
    (finishFired v).nextMode = v.nextMode ∧ (finishFired v).nextFrame = v.nextFrame ∧
    (finishFired v).stat = v.stat ∧ (finishFired v).mem = v.mem := by
  unfold finishFired
  split <;> simp

theorem frameStep_proj (env : Env) (v : GBVideoState) :
    (frameStep env v).1.mode = v.mode ∧ (frameStep env v).1.ly = v.ly ∧
    (frameStep env v).1.nextMode = v.nextMode ∧ (frameStep env v).1.stat = v.stat ∧
    (frameStep env v).1.mem = v.mem := by
  unfold frameStep
  split
  · split
    · dsimp only
      split <;> simp
    · dsimp only
      split <;> simp
  · simp

theorem runPE_intmax (steps : List (Env × Int)) (s : GBVideoState)
    (h : s.nextEvent = INT32_MAX) :
    (runPE s steps).nextEvent = INT32_MAX ∧ (runPE s steps).mode = s.mode ∧
    (runPE s steps).ly = s.ly ∧ (runPE s steps).stat = s.stat ∧
    (runPE s steps).mem = s.mem ∧ (runPE s steps).nextMode = s.nextMode ∧
    (runPE s steps).nextFrame = s.nextFrame := by
  induction steps generalizing s with
  | nil => simp [runPE, h]
  | cons hd tl ih =>
    unfold runPE
    rw [pe_intmax hd.1 s hd.2 h]
    have := ih { s with eventDiff := s.eventDiff + hd.2 } h
    simpa using this

/-- C10: after reset the core reports VBlank (`mode = 1`, `stat = 1`,
`ly = 0`, `x = 0`, `frameCounter = 0`), every timer is at its disarmed
sentinel (`nextEvent = nextMode = nextFrame = INT_MAX`,
`dotCounter = INT_MIN`), OAM and palette are zeroed, and every subsequent
`processEvents` call returns `INT_MAX`, performs no mode transition and
raises no interrupt until a register write arms the schedule. -/
theorem C10_reset_quiescent (v : GBVideoState) : C10Post v := by
  unfold C10Post
  refine ⟨rfl, rfl, rfl, rfl, rfl, rfl, rfl, rfl, rfl, rfl, rfl, ?_⟩
  intro steps
  have hr : (GBVideoReset v).nextEvent = INT32_MAX := rfl
  have hmain := runPE_intmax steps (GBVideoReset v) hr
  refine ⟨hmain.1, ?_, ?_, ?_, ?_, ?_, ?_, ?_⟩
  · rw [hmain.2.1]; rfl
  · rw [hmain.2.2.1]; rfl
  · rw [hmain.2.2.2.1]; rfl
  · rw [hmain.2.2.2.2.1]; rfl
  · rw [hmain.2.2.2.2.2.1]; rfl
  · rw [hmain.2.2.2.2.2.2]; rfl
  · intro env cycles
    rw [pe_intmax env _ cycles hmain.1]

/-- C3 (amended): after every call to `processEvents` in which the armed
event deadline fires, `nextEvent ≤ nextMode` holds (treating `INT_MAX` as
infinity); the `nextFrame` half of the claimed bound does not hold in
general. -/
theorem C3_nextEvent_le_nextMode (env : Env) (v : GBVideoState) (cycles : Int)
    (h1 : v.nextEvent ≠ INT32_MAX) (h2 : v.nextEvent - cycles ≤ 0) :
    leInfty (GBVideoProcessEvents env v cycles).1.nextEvent
      (GBVideoProcessEvents env v cycles).1.nextMode := by
  unfold GBVideoProcessEvents
  dsimp only
  rw [if_pos h1, if_pos h2]
  exact Or.inr (finishFired_le _)

/-- C3 witness: a fired call from a concrete armed state. -/
theorem C3_nextEvent_le_nextMode_witness :
    ({ initCore with nextEvent := 5 } : GBVideoState).nextEvent ≠ INT32_MAX ∧
    ({ initCore with nextEvent := 5 } : GBVideoState).nextEvent - 5 ≤ 0 ∧
    leInfty (GBVideoProcessEvents envFetch { initCore with nextEvent := 5 } 5).1.nextEvent
      (GBVideoProcessEvents envFetch { initCore with nextEvent := 5 } 5).1.nextMode :=
  ⟨by decide, by decide,
   C3_nextEvent_le_nextMode envFetch { initCore with nextEvent := 5 } 5
     (by decide) (by decide)⟩

/-- C3 counterexample: at the reachable state `sLate` (VBlank entered with
the frame timer reloaded), a late `processEvents` call of 70000 cycles
leaves `nextEvent = 456 > nextFrame = 224`, refuting
`nextEvent ≤ min(nextMode, nextFrame)` as stated. -/
theorem C3_counterexample :
    ¬ (∀ s : GBVideoState, Reachable s → ∀ (env : Env) (cycles : Int),
        leInfty (GBVideoProcessEvents env s cycles).1.nextEvent
          (GBVideoProcessEvents env s cycles).1.nextMode ∧
        leInfty (GBVideoProcessEvents env s cycles).1.nextEvent
          (GBVideoProcessEvents env s cycles).1.nextFrame) := by
  intro h
  have h2 := (h sLate ⟨opsLate, rfl⟩ envFetch 70000).2
  revert h2
  decide

theorem firedTail_mode (env : Env) (u : GBVideoState) :
    (finishFired (frameStep env u).1).mode = u.mode :=
  ((finishFired_proj _).1).trans (frameStep_proj env u).1

theorem firedTail_ly (env : Env) (u : GBVideoState) :
    (finishFired (frameStep env u).1).ly = u.ly :=
  ((finishFired_proj _).2.1).trans (frameStep_proj env u).2.1

theorem firedTail_nextMode (env : Env) (u : GBVideoState) :
    (finishFired (frameStep env u).1).nextMode = u.nextMode :=
  ((finishFired_proj _).2.2.1).trans (frameStep_proj env u).2.2.1

theorem firedTail_stat (env : Env) (u : GBVideoState) :
    (finishFired (frameStep env u).1).stat = u.stat :=
  ((finishFired_proj _).2.2.2.2.1).trans (frameStep_proj env u).2.2.2.1

theorem firedTail_mem (env : Env) (u : GBVideoState) :
    (finishFired (frameStep env u).1).mem = u.mem :=
  ((finishFired_proj _).2.2.2.2.2).trans (frameStep_proj env u).2.2.2.2

theorem pe_lcdoff (env : Env) (w : GBVideoState) (cycles : Int) (h : LCDOff w) :
    LCDOff (GBVideoProcessEvents env w cycles).1 ∧
    (GBVideoProcessEvents env w cycles).1.mem.intFlags = w.mem.intFlags := by
  obtain ⟨hm, hnm, hly⟩ := h
  unfold GBVideoProcessEvents
  dsimp only
  split
  case isTrue =>
    split
    case isTrue =>
      rw [processDots_skip env _ (Or.inl (by simp [hm]))]
      rw [modeStep_skip env _ (by simp [hnm]; decide)]
      unfold LCDOff
      rw [firedTail_mode, firedTail_ly, firedTail_nextMode, firedTail_mem]
      dsimp only
      exact ⟨⟨hm, by simp [hnm], hly⟩, rfl⟩
    case isFalse => exact ⟨⟨hm, hnm, hly⟩, rfl⟩
  case isFalse =>
    split
    case isTrue =>
      rw [processDots_skip env _ (Or.inl (by simp [hm]))]
      rw [modeStep_skip env _ (by simp [hnm]; decide)]
      unfold LCDOff
      rw [firedTail_mode, firedTail_ly, firedTail_nextMode, firedTail_mem]
      dsimp only
      exact ⟨⟨hm, by simp [hnm], hly⟩, rfl⟩
    case isFalse => exact ⟨⟨hm, hnm, hly⟩, rfl⟩

theorem runPE_lcdoff (steps : List (Env × Int)) (w : GBVideoState) (h : LCDOff w) :
    LCDOff (runPE w steps) ∧ (runPE w steps).mem.intFlags = w.mem.intFlags := by
  induction steps generalizing w with
  | nil => exact ⟨h, rfl⟩
  | cons hd tl ih =>
    unfold runPE
    have h1 := pe_lcdoff hd.1 w hd.2 h
    have h2 := ih _ h1.1
    exact ⟨h2.1, h2.2.trans h1.2⟩

/-- C7: an ON→OFF `writeLCDC` edge leaves `ly = 0`, `mode = 0`,
`nextMode = INT_MAX`, and every subsequent sequence of `processEvents`
calls, of any cycle deltas, with no re-enable, keeps `ly = 0` and
`mode = 0` and never sets the VBlank or LCDSTAT bit in `IF`. -/
theorem C7_lcd_disable_idempotent (env : Env) (v : GBVideoState) (value : Nat)
    (hEn : GBRegisterLCDCIsEnable v.mem.lcdc = true)
    (hDis : GBRegisterLCDCIsEnable value = false) :
    C7Post env v value := by
  have hW : LCDOff (GBVideoWriteLCDC env v value) := by
    unfold GBVideoWriteLCDC
    rw [if_neg (by simp [hEn, hDis]), if_pos (by simp [hEn, hDis])]
    exact ⟨rfl, rfl, rfl⟩
  obtain ⟨hWm, hWnm, hWly⟩ :
      (GBVideoWriteLCDC env v value).mode = 0 ∧
      (GBVideoWriteLCDC env v value).nextMode = INT32_MAX ∧
      (GBVideoWriteLCDC env v value).ly = 0 := hW
  unfold C7Post
  refine ⟨hWly, hWm, hWnm, ?_⟩
  intro steps
  obtain ⟨⟨h1, h2, h3⟩, h4⟩ :
      ((runPE (GBVideoWriteLCDC env v value) steps).mode = 0 ∧
       (runPE (GBVideoWriteLCDC env v value) steps).nextMode = INT32_MAX ∧
       (runPE (GBVideoWriteLCDC env v value) steps).ly = 0) ∧
      (runPE (GBVideoWriteLCDC env v value) steps).mem.intFlags
        = (GBVideoWriteLCDC env v value).mem.intFlags :=
    runPE_lcdoff steps (GBVideoWriteLCDC env v value) ⟨hWm, hWnm, hWly⟩
  exact ⟨h3, h1, congrArg (fun n => n.testBit GB_IRQ_VBLANK) h4,
         congrArg (fun n => n.testBit GB_IRQ_LCDSTAT) h4⟩

/-- C7 witness: disable the LCD on a concrete enabled core. -/
theorem C7_lcd_disable_idempotent_witness :
    GBRegisterLCDCIsEnable vOn.mem.lcdc = true ∧
    GBRegisterLCDCIsEnable 0 = false ∧
    C7Post envFetch vOn 0 :=
  ⟨by decide, by decide,
   C7_lcd_disable_idempotent envFetch vOn 0 (by decide) (by decide)⟩

/-- C6: when `processDots` runs with `mode = 3` and `dotCounter ≥ 0`, the
new `x` is `dotCounter + eventDiff + (cycles >> doubleSpeed)` clamped above
at 160; a negative computed value retains the prior `x` and logs a fatal
condition; reaching 160 disarms the dot counter; `drawRange` is invoked iff
`frameskipCounter ≤ 0`; and `x ∈ [0, 160]` is preserved. -/
theorem C6_processDots (env : Env) (v : GBVideoState)
    (hm : v.mode = 3) (hd : 0 ≤ v.dotCounter) : C6Post env v := by
  unfold C6Post GBVideoProcessDots
  rw [if_neg (by simp [hm]; omega)]
  unfold GB_VIDEO_HORIZONTAL_PIXELS
  dsimp only
  refine ⟨?_, ?_, ?_, ?_, ?_⟩
  · split_ifs <;> first | rfl | omega
  · intro hneg
    refine ⟨?_, ?_, ?_⟩
    · split_ifs <;> first | rfl | omega
    · split_ifs <;> first | omega | simp_all
    · intro hx160
      split_ifs <;> first | rfl | omega
  · intro hx
    revert hx
    split_ifs <;> intro hx <;> first | rfl | omega
  · split_ifs <;> simp_all
  · intro h0 h1
    split_ifs <;> constructor <;> omega

/-- C6 witness: resolve the dot clock on a concrete armed mode-3 core. -/
theorem C6_processDots_witness :
    vMode3.mode = 3 ∧ 0 ≤ vMode3.dotCounter ∧ C6Post envFetch vMode3 :=
  ⟨by decide, by decide, C6_processDots envFetch vMode3 (by decide) (by decide)⟩

theorem writePalette_bcpIndex (env : Env) (v : GBVideoState) (address value : Nat) :
    (GBVideoWritePalette env v address value).1.bcpIndex = v.bcpIndex ∨
    (GBVideoWritePalette env v address value).1.bcpIndex = (v.bcpIndex + 1) &&& 63 := by
  unfold GBVideoWritePalette
  dsimp only
  split_ifs <;> dsimp only <;> first | exact Or.inl rfl | exact Or.inr rfl

theorem writePalette_ocpIndex (env : Env) (v : GBVideoState) (address value : Nat) :
    (GBVideoWritePalette env v address value).1.ocpIndex = v.ocpIndex ∨
    (GBVideoWritePalette env v address value).1.ocpIndex = (v.ocpIndex + 1) &&& 63 := by
  unfold GBVideoWritePalette
  dsimp only
  split_ifs <;> dsimp only <;> first | exact Or.inl rfl | exact Or.inr rfl

/-- C9: the CGB paths of `writePalette` only ever address `palette[0..64)`:
both cursors stay in `[0, 63]` across every write (the post-write increment
is masked with `0x3F`) and across deserialization (both loaded cursors are
masked to 6 bits). -/
theorem C9_palette_cursor_bounds (env : Env) (v : GBVideoState)
    (address value : Nat) (hb : v.bcpIndex < 64) (ho : v.ocpIndex < 64) :
    C9Post env v address value := by
  unfold C9Post
  refine ⟨?_, ?_, ?_, ?_, ?_⟩
  · rw [Nat.shiftRight_eq_div_pow]
    omega
  · rw [Nat.shiftRight_eq_div_pow]
    omega
  · rcases writePalette_bcpIndex env v address value with h | h <;> rw [h]
    · exact hb
    · exact lt_of_le_of_lt Nat.and_le_right (by omega)
  · rcases writePalette_ocpIndex env v address value with h | h <;> rw [h]
    · exact ho
    · exact lt_of_le_of_lt Nat.and_le_right (by omega)
  · intro w st
    unfold GBVideoDeserialize GBVideoSwitchBank _cleanOAM
    dsimp only
    exact ⟨lt_of_le_of_lt Nat.and_le_right (by omega),
           lt_of_le_of_lt Nat.and_le_right (by omega)⟩

/-- C9 witness: a concrete CGB `BCPD` write from in-range cursors. -/
theorem C9_palette_cursor_bounds_witness :
    initCore.bcpIndex < 64 ∧ initCore.ocpIndex < 64 ∧
    C9Post envCgb initCore REG_BCPD 18 :=
  ⟨by decide, by decide,
   C9_palette_cursor_bounds envCgb initCore REG_BCPD 18 (by decide) (by decide)⟩

theorem or_and_mask (a b m : Nat) (hdisj : a &&& m = 0) :
    (a ||| b) &&& m = b &&& m := by
  apply Nat.eq_of_testBit_eq
  intro i
  have hd := congrArg (fun n => n.testBit i) hdisj
  simp only [Nat.testBit_and, Nat.zero_testBit] at hd
  simp only [Nat.testBit_and, Nat.testBit_or]
  cases ha : a.testBit i <;> cases hb : b.testBit i <;> cases hm2 : m.testBit i <;>
    simp_all

theorem or_shiftRight (a b k : Nat) : (a ||| b) >>> k = (a >>> k) ||| (b >>> k) := by
  apply Nat.eq_of_testBit_eq
  intro i
  simp [Nat.testBit_or, Nat.testBit_shiftRight]

theorem shiftLeft8_and255 (v : Nat) : (v <<< 8) &&& 255 = 0 := by
  apply Nat.eq_of_testBit_eq
  intro i
  simp only [Nat.testBit_and, Nat.testBit_shiftLeft, Nat.zero_testBit,
    show (255 : Nat) = 2 ^ 8 - 1 from rfl, Nat.testBit_two_pow_sub_one]
  rcases Nat.lt_or_ge i 8 with h | h
  · simp [Nat.not_le.mpr h]
  · simp [Nat.not_lt.mpr h]

theorem statSetMode_and3 (s : Nat) : GBRegisterSTATSetMode s 2 &&& 3 = 2 := by
  unfold GBRegisterSTATSetMode
  rw [or_and_mask _ _ _ (by rw [Nat.and_assoc]; exact Nat.and_zero s)]
  decide

theorem statSetLYC_and3 (s : Nat) (b : Bool) :
    GBRegisterSTATSetLYC s b &&& 3 = s &&& 3 := by
  unfold GBRegisterSTATSetLYC
  cases b
  · simp only [if_false, Bool.false_eq_true]
    rw [Nat.and_assoc]
    rfl
  · simp only [if_true]
    rw [Nat.lor_comm, or_and_mask _ _ _ (by decide)]

theorem statSetLYC_testBit2 (s : Nat) (b : Bool) :
    (GBRegisterSTATSetLYC s b).testBit 2 = b := by
  unfold GBRegisterSTATSetLYC
  cases b <;>
    simp [Nat.testBit_or, Nat.testBit_and,
      show Nat.testBit 251 2 = false from rfl, show Nat.testBit 4 2 = true from rfl]

theorem statSetLYC_IsLYCIRQ (s : Nat) (b : Bool) :
    GBRegisterSTATIsLYCIRQ (GBRegisterSTATSetLYC s b) = GBRegisterSTATIsLYCIRQ s := by
  unfold GBRegisterSTATIsLYCIRQ GBRegisterSTATSetLYC
  cases b <;>
    simp [Nat.testBit_or, Nat.testBit_and,
      show Nat.testBit 251 6 = true from rfl, show Nat.testBit 4 6 = false from rfl]

theorem statSetLYC_IsHblankIRQ (s : Nat) (b : Bool) :
    GBRegisterSTATIsHblankIRQ (GBRegisterSTATSetLYC s b) = GBRegisterSTATIsHblankIRQ s := by
  unfold GBRegisterSTATIsHblankIRQ GBRegisterSTATSetLYC
  cases b <;>
    simp [Nat.testBit_or, Nat.testBit_and,
      show Nat.testBit 251 3 = true from rfl, show Nat.testBit 4 3 = false from rfl]

theorem statSetLYC_IsOAMIRQ (s : Nat) (b : Bool) :
    GBRegisterSTATIsOAMIRQ (GBRegisterSTATSetLYC s b) = GBRegisterSTATIsOAMIRQ s := by
  unfold GBRegisterSTATIsOAMIRQ GBRegisterSTATSetLYC
  cases b <;>
    simp [Nat.testBit_or, Nat.testBit_and,
      show Nat.testBit 251 5 = true from rfl, show Nat.testBit 4 5 = false from rfl]

theorem statSetLYC_IsVblankIRQ (s : Nat) (b : Bool) :
    GBRegisterSTATIsVblankIRQ (GBRegisterSTATSetLYC s b) = GBRegisterSTATIsVblankIRQ s := by
  unfold GBRegisterSTATIsVblankIRQ GBRegisterSTATSetLYC
  cases b <;>
    simp [Nat.testBit_or, Nat.testBit_and,
      show Nat.testBit 251 4 = true from rfl, show Nat.testBit 4 4 = false from rfl]

theorem statSetMode_IsLYCIRQ (s m : Nat) :
    GBRegisterSTATIsLYCIRQ (GBRegisterSTATSetMode s m) = GBRegisterSTATIsLYCIRQ s := by
  unfold GBRegisterSTATIsLYCIRQ GBRegisterSTATSetMode
  simp [Nat.testBit_or, Nat.testBit_and,
    show Nat.testBit 252 6 = true from rfl, show Nat.testBit 3 6 = false from rfl]

theorem intBeq_comm_zero (n : Nat) : ((0 : Int) == (n : Int)) = (n == 0) := by
  by_cases h : n = 0
  · simp [h]
  · simp [h]
    omega

/-- C2 (amended): an OFF→ON `writeLCDC` edge sets `mode = 2`,
`nextMode = MODE2_LEN − 5`, `nextEvent = nextMode`, `ly = IO[LY] = 0`,
updates the STAT mode and LYC-coincidence bits, raises LCDSTAT iff the
LYC-IRQ enable is set and LYC equals 0, and sets
`eventDiff = (−cycles) >> doubleSpeed` — the arithmetic shift applies to the
negated cycle count, which differs from `−(cycles >> doubleSpeed)` for odd
cycle counts in double-speed mode. -/
theorem C2_writeLCDC_enable (env : Env) (v : GBVideoState) (value : Nat)
    (h0 : GBRegisterLCDCIsEnable v.mem.lcdc = false)
    (h1 : GBRegisterLCDCIsEnable value = true) :
    C2Post env v value := by
  unfold C2Post GBVideoWriteLCDC raiseIRQ
  rw [if_pos (by simp [h0, h1])]
  dsimp only
  rw [statSetLYC_IsLYCIRQ, statSetMode_IsLYCIRQ, intBeq_comm_zero]
  split_ifs <;> refine ⟨rfl, rfl, rfl, rfl, rfl, ?_, ?_, rfl, rfl, rfl⟩ <;>
    first
      | rw [statSetLYC_and3, statSetMode_and3]
      | rw [statSetLYC_testBit2]

/-- C2 counterexample: with `cpu.cycles = 1` and `doubleSpeed = 1` the code
computes `eventDiff = (−1) >> 1 = −1`, while the claimed value
`−(cycles >> doubleSpeed)` is `0`. -/
theorem C2_counterexample :
    (GBVideoWriteLCDC envOdd initCore 128).eventDiff
      ≠ -(sar envOdd.cpuCycles envOdd.doubleSpeed) := by
  decide

/-- C2 witness: a concrete OFF→ON edge. -/
theorem C2_writeLCDC_enable_witness :
    GBRegisterLCDCIsEnable initCore.mem.lcdc = false ∧
    GBRegisterLCDCIsEnable 128 = true ∧ C2Post envOdd initCore 128 :=
  ⟨by decide, by decide,
   C2_writeLCDC_enable envOdd initCore 128 (by decide) (by decide)⟩

theorem modeZeroStep_visible (w : GBVideoState)
    (h : w.ly + 1 < GB_VIDEO_VERTICAL_PIXELS) :
    (modeZeroStep w).1.mode = 2 ∧
    (modeZeroStep w).1.mem.intFlags.testBit GB_IRQ_LCDSTAT =
      (w.mem.intFlags.testBit GB_IRQ_LCDSTAT ||
       (!GBRegisterSTATIsHblankIRQ w.stat && GBRegisterSTATIsOAMIRQ w.stat) ||
       (GBRegisterSTATIsLYCIRQ w.stat && ((w.mem.lyc : Int) == w.ly + 1))) := by
  unfold modeZeroStep raiseIRQ GB_IRQ_LCDSTAT
  dsimp only
  rw [if_pos h]
  cases hhb : GBRegisterSTATIsHblankIRQ w.stat <;>
    cases hoam : GBRegisterSTATIsOAMIRQ w.stat <;>
      cases hlyc : GBRegisterSTATIsLYCIRQ w.stat <;>
        by_cases hco : ((w.mem.lyc : Int) = w.ly + 1) <;>
          simp_all [statSetLYC_IsHblankIRQ, statSetLYC_IsOAMIRQ, statSetLYC_IsLYCIRQ,
            Nat.testBit_or, show Nat.testBit (1 <<< 1) 1 = true from rfl,
            show Nat.testBit 2 1 = true from rfl]

/-- C8: when mode 0 expires onto a still-visible line (`ly + 1 < 144`), the
core enters mode 2 and the LCDSTAT bit of `IF` is raised at that boundary
exactly when `!STAT.HBLANK_IRQ && STAT.OAM_IRQ` holds, or the LYC
coincidence raise applies. -/
theorem C8_hblank_to_oam_quirk (env : Env) (v : GBVideoState) (cycles : Int)
    (hne : v.nextEvent ≠ INT32_MAX) (hfired : v.nextEvent - cycles ≤ 0)
    (hnm : v.nextMode ≠ INT32_MAX)
    (hdue : v.nextMode - (v.eventDiff + cycles) ≤ 0)
    (hm : v.mode = 0) (hvis : v.ly + 1 < GB_VIDEO_VERTICAL_PIXELS) :
    C8Post env v cycles := by
  unfold C8Post GBVideoProcessEvents
  dsimp only
  rw [if_pos hne, if_pos hfired]
  rw [processDots_skip env _ (Or.inl (by simp [hm]))]
  unfold modeStep
  rw [if_pos (by simp [hnm]; omega)]
  unfold modeDispatch
  dsimp only
  rw [hm]
  have hz := modeZeroStep_visible
    { v with
      nextMode := if v.nextMode ≠ INT32_MAX then v.nextMode - (v.eventDiff + cycles)
                  else v.nextMode,
      nextFrame := if v.nextFrame ≠ INT32_MAX then v.nextFrame - (v.eventDiff + cycles)
                   else v.nextFrame,
      nextEvent := INT32_MAX,
      eventDiff := v.eventDiff + cycles }
    (by dsimp only; exact hvis)
  rw [firedTail_mode, firedTail_mem]
  dsimp only
  exact ⟨hz.1, hz.2⟩

/-- C8 witness: a concrete HBlank expiry on line 10. -/
theorem C8_hblank_to_oam_quirk_witness :
    vHb.nextEvent ≠ INT32_MAX ∧ vHb.nextEvent - 4 ≤ 0 ∧
    vHb.nextMode ≠ INT32_MAX ∧ vHb.nextMode - (vHb.eventDiff + 4) ≤ 0 ∧
    vHb.mode = 0 ∧ vHb.ly + 1 < GB_VIDEO_VERTICAL_PIXELS ∧
    C8Post envFetch vHb 4 :=
  ⟨by decide, by decide, by decide, by decide, by decide, by decide,
   C8_hblank_to_oam_quirk envFetch vHb 4 (by decide) (by decide) (by decide)
     (by decide) (by decide) (by decide)⟩

theorem objVisible_iff (y hgt : Int) (oy : Nat) :
    objVisible y hgt oy = decide ((oy : Int) - 16 ≤ y ∧ y < (oy : Int) - 16 + hgt) := by
  unfold objVisible
  by_cases h1 : y < (oy : Int) - 16 <;> by_cases h2 : y ≥ (oy : Int) - 16 + hgt <;>
    first
      | (simp [h1, h2]; omega)
      | simp [h1, h2]

theorem cleanOAMLoop_eq (y hgt : Int) (l : List GBObj) (o : Nat) (ho : o < 10) :
    cleanOAMLoop y hgt l o =
      (l.filter (fun ob => objVisible y hgt ob.y)).take (10 - o) := by
  induction l generalizing o with
  | nil => simp [cleanOAMLoop]
  | cons hd tl ih =>
    unfold cleanOAMLoop
    by_cases hv : objVisible y hgt hd.y
    · rw [if_pos hv, List.filter_cons, if_pos hv]
      by_cases h10 : o + 1 = 10
      · rw [if_pos (by simp; omega), show 10 - o = 1 by omega]
        simp
      · rw [if_neg (by simp; omega), ih (o + 1) (by omega),
            show 10 - o = (10 - (o + 1)) + 1 by omega, List.take_succ_cons]
    · rw [if_neg hv, List.filter_cons, if_neg hv, ih o ho]

/-- C5: for every line `y`, the OAM scan selects, in OAM index order, the
first visible entries up to 10 — an entry with screen-Y `oy` is visible iff
`y ∈ [oy−16, oy−16+h)` with `h = 16` when LCDC bit 2 is set and `8`
otherwise — and `objMax` is the minimum of 10 and the number of visible
entries. -/
theorem C5_cleanOAM_selection (v : GBVideoState) (y : Int) :
    (∀ oy : Nat,
      objVisible y (if GBRegisterLCDCIsObjSize v.mem.lcdc then 16 else 8) oy =
        decide ((oy : Int) - 16 ≤ y ∧
          y < (oy : Int) - 16 +
            (if GBRegisterLCDCIsObjSize v.mem.lcdc then 16 else 8))) ∧
    (_cleanOAM v y).objThisLine =
      (v.oam.filter (fun ob =>
        objVisible y (if GBRegisterLCDCIsObjSize v.mem.lcdc then 16 else 8) ob.y)).take 10 ∧
    (_cleanOAM v y).objMax =
      min 10 (v.oam.filter (fun ob =>
        objVisible y (if GBRegisterLCDCIsObjSize v.mem.lcdc then 16 else 8) ob.y)).length := by
  refine ⟨fun oy => objVisible_iff _ _ oy, ?_, ?_⟩
  · unfold _cleanOAM
    dsimp only
    rw [cleanOAMLoop_eq y _ v.oam 0 (by omega)]
  · unfold _cleanOAM
    dsimp only
    rw [cleanOAMLoop_eq y _ v.oam 0 (by omega)]
    rw [List.length_take]

theorem lowHigh_shiftRight (old value : Nat) :
    ((old &&& 255) ||| (value <<< 8)) >>> 8 = value := by
  rw [or_shiftRight]
  rw [Nat.shiftRight_eq_div_pow, Nat.shiftRight_eq_div_pow,
      Nat.div_eq_of_lt (lt_of_le_of_lt Nat.and_le_right (by omega)),
      Nat.shiftLeft_eq, Nat.mul_div_cancel _ (by omega)]
  simp

theorem lowHigh_and255 (old value : Nat) :
    ((old &&& 255) ||| (value <<< 8)) &&& 255 = old &&& 255 := by
  rw [Nat.lor_comm, or_and_mask _ _ _ (shiftLeft8_and255 value)]
  rw [Nat.and_assoc]
  rfl

theorem highLow_and255 (old value : Nat) (hv : value < 256) :
    ((old &&& 65280) ||| value) &&& 255 = value := by
  rw [or_and_mask _ _ _ (by rw [Nat.and_assoc]; exact Nat.and_zero old)]
  exact (Nat.and_pow_two_sub_one_of_lt_two_pow (n := 8) hv : value &&& 255 = value)

theorem highLow_shiftRight (old value : Nat) (hv : value < 256) :
    ((old &&& 65280) ||| value) >>> 8 = (old &&& 65280) >>> 8 := by
  rw [or_shiftRight, Nat.shiftRight_eq_div_pow value, Nat.div_eq_of_lt (by omega)]
  simp

theorem bcps_mod64 (b idx : Nat) (hidx : idx < 64) :
    ((b &&& 128) ||| idx) % 64 = idx := by
  rw [← (Nat.and_pow_two_sub_one_eq_mod ((b &&& 128) ||| idx) 6 :
        ((b &&& 128) ||| idx) &&& 63 = ((b &&& 128) ||| idx) % 64)]
  rw [or_and_mask _ _ _ (by rw [Nat.and_assoc]; exact Nat.and_zero b)]
  exact (Nat.and_pow_two_sub_one_of_lt_two_pow (n := 6) hidx : idx &&& 63 = idx)

theorem bcps_testBit7 (b idx : Nat) (hidx : idx < 128) :
    ((b &&& 128) ||| idx).testBit 7 = b.testBit 7 := by
  simp [Nat.testBit_or, Nat.testBit_and, show Nat.testBit 128 7 = true from rfl,
        Nat.testBit_lt_two_pow (show idx < 2 ^ 7 from hidx)]

/-- C4: a CGB `BCPD` byte write updates the addressed half of
`palette[bcpIndex >> 1]`, invokes `renderer.writePalette` with that index
and the new 16-bit color, applies the masked auto-increment and mirrors it
into `BCPS` with bit 7 preserved, and leaves `IO[BCPD]` holding the byte
addressed by the resulting `bcpIndex`; consequently three auto-incremented
writes `0x34, 0x12, 0xFF` from cursor 0 leave `palette[0] = 0x1234`, the
low byte of `palette[1]` equal to `0xFF`, and `bcpIndex = 3`. -/
theorem C4_bcpd_write (env : Env) (v : GBVideoState) (value0 : Nat)
    (hmodel : ¬ env.model < GB_MODEL_CGB) :
    C4Post env v value0 ∧ C4Scenario := by
  constructor
  · unfold C4Post GBVideoWritePalette
    rw [if_neg hmodel, if_pos rfl]
    dsimp only
    by_cases hodd : v.bcpIndex &&& 1 = 1
    · rw [if_pos hodd]
      cases hinc : v.bcpIncrement
      · rw [if_neg (by simp [hinc])]
        refine ⟨rfl, ?_, ?_, rfl, ?_, ?_, rfl⟩
        · intro _
          exact ⟨lowHigh_shiftRight _ _, lowHigh_and255 _ _⟩
        · intro hcontra
          omega
        · intro hcontra
          cases hcontra
        · intro _
          exact ⟨rfl, rfl⟩
      · rw [if_pos (by simp [hinc])]
        refine ⟨rfl, ?_, ?_, rfl, ?_, ?_, rfl⟩
        · intro _
          exact ⟨lowHigh_shiftRight _ _, lowHigh_and255 _ _⟩
        · intro hcontra
          omega
        · intro _
          refine ⟨(Nat.and_pow_two_sub_one_eq_mod (v.bcpIndex + 1) 6 :
              (v.bcpIndex + 1) &&& 63 = (v.bcpIndex + 1) % 64), rfl, ?_, ?_⟩
          · exact bcps_mod64 _ _ (lt_of_le_of_lt Nat.and_le_right (by omega))
          · exact bcps_testBit7 _ _ (lt_of_le_of_lt Nat.and_le_right (by omega))
        · intro hcontra
          cases hcontra
    · rw [if_neg hodd]
      have heven : v.bcpIndex &&& 1 = 0 := by
        rcases Nat.and_one_is_mod v.bcpIndex ▸ Nat.mod_two_eq_zero_or_one v.bcpIndex with h | h
        · exact h
        · exact absurd h hodd
      cases hinc : v.bcpIncrement
      · rw [if_neg (by simp [hinc])]
        refine ⟨rfl, ?_, ?_, rfl, ?_, ?_, rfl⟩
        · intro hcontra
          omega
        · intro _
          exact ⟨highLow_and255 _ _ (by omega), highLow_shiftRight _ _ (by omega)⟩
        · intro hcontra
          cases hcontra
        · intro _
          exact ⟨rfl, rfl⟩
      · rw [if_pos (by simp [hinc])]
        refine ⟨rfl, ?_, ?_, rfl, ?_, ?_, rfl⟩
        · intro hcontra
          omega
        · intro _
          exact ⟨highLow_and255 _ _ (by omega), highLow_shiftRight _ _ (by omega)⟩
        · intro _
          refine ⟨(Nat.and_pow_two_sub_one_eq_mod (v.bcpIndex + 1) 6 :
              (v.bcpIndex + 1) &&& 63 = (v.bcpIndex + 1) % 64), rfl, ?_, ?_⟩
          · exact bcps_mod64 _ _ (lt_of_le_of_lt Nat.and_le_right (by omega))
          · exact bcps_testBit7 _ _ (lt_of_le_of_lt Nat.and_le_right (by omega))
        · intro hcontra
          cases hcontra
  · exact ⟨by decide, by decide, by decide⟩

/-- C4 witness: the first auto-incremented `BCPD` write of scenario S5. -/
theorem C4_bcpd_write_witness :
    ¬ envCgb.model < GB_MODEL_CGB ∧ (C4Post envCgb s5a 52 ∧ C4Scenario) :=
  ⟨by decide, C4_bcpd_write envCgb s5a 52 (by decide)⟩

theorem u16_roundtrip (x : Int) (h0 : 0 ≤ x) (h1 : x < 65536) :
    ((toU16 x % 65536 : Nat) : Int) = x := by
  unfold toU16
  omega

theorem i32_roundtrip (x : Int) (h0 : -2147483648 ≤ x) (h1 : x < 2147483648) :
    ofI32 (toU32 x % 4294967296) = x := by
  unfold ofI32 toU32
  split_ifs <;> omega

theorem packVideoFlags_mode (b1 b2 : Bool) (m : Nat) (hm : m < 4) :
    (packVideoFlags b1 b2 m >>> 2) &&& 3 = m := by
  unfold packVideoFlags
  have h1 : ((if b1 then 1 else 0 : Nat) ||| (if b2 then 2 else 0)) >>> 2 = 0 := by
    cases b1 <;> cases b2 <;> decide
  have h2 : ((m &&& 3) <<< 2) >>> 2 = m &&& 3 := by
    rw [Nat.shiftLeft_eq, Nat.shiftRight_eq_div_pow]
    exact Nat.mul_div_cancel _ (by omega)
  rw [or_shiftRight, h1, h2, Nat.lor_comm, Nat.or_zero, Nat.and_assoc]
  exact (Nat.and_pow_two_sub_one_of_lt_two_pow (n := 2) hm : m &&& 3 = m)

theorem palette_roundtrip (l : List Nat) (hlen : l.length = 64)
    (hval : ∀ p ∈ l, p < 65536) :
    (List.range 64).map (fun i =>
      ((List.range 64).map (fun j => l.getD j 0 % 65536)).getD i 0 % 65536) = l := by
  apply List.ext_getElem
  · simp [hlen]
  · intro i h1 h2
    simp only [List.getElem_map, List.getElem_range]
    have hi : i < 64 := by simpa using h1
    rw [List.getD_eq_getElem _ _ (by simpa using hi)]
    simp only [List.getElem_map, List.getElem_range]
    rw [List.getD_eq_getElem _ _ (by omega)]
    have hlt : l[i] < 65536 := hval _ (List.getElem_mem _)
    omega

/-- C1 (amended): serializing and deserializing into a fresh post-reset
core restores `ly`, `mode`, `nextEvent`, `nextMode`, `eventDiff`,
`dotCounter`, the 64 palette entries, VRAM and OAM, and the renderer
receives exactly 64 `writePalette` callbacks — but `nextFrame` is not part
of the serialized layout and keeps the fresh core's `INT32_MAX`. -/
theorem C1_roundtrip (w v : GBVideoState)
    (hly0 : 0 ≤ v.ly) (hly1 : v.ly < 65536) (hmode : v.mode < 4)
    (ha1 : -2147483648 ≤ v.nextEvent) (ha2 : v.nextEvent < 2147483648)
    (hb1 : -2147483648 ≤ v.nextMode) (hb2 : v.nextMode < 2147483648)
    (hc1 : -2147483648 ≤ v.eventDiff) (hc2 : v.eventDiff < 2147483648)
    (hd1 : -2147483648 ≤ v.dotCounter) (hd2 : v.dotCounter < 2147483648)
    (hplen : v.palette.length = 64) (hpval : ∀ p ∈ v.palette, p < 65536) :
    C1Post w v := by
  unfold C1Post GBVideoSerialize GBVideoDeserialize GBVideoSwitchBank _cleanOAM
  dsimp only
  refine ⟨u16_roundtrip v.ly hly0 hly1, packVideoFlags_mode _ _ _ hmode,
    i32_roundtrip _ ha1 ha2, i32_roundtrip _ hb1 hb2, i32_roundtrip _ hc1 hc2,
    i32_roundtrip _ hd1 hd2, palette_roundtrip v.palette hplen hpval,
    rfl, rfl, rfl, by simp, ?_⟩
  intro e he
  simp only [List.mem_map] at he
  obtain ⟨i, _, rfl⟩ := he
  exact ⟨i, _, rfl⟩

/-- C1 counterexample: a mid-frame core with finite `nextFrame = 456`
serialized at `ly = 100`, `mode = 1` does not get its `nextFrame` restored:
the deserialized core keeps the fresh core's `INT32_MAX`. -/
theorem C1_counterexample :
    (GBVideoDeserialize (GBVideoReset initCore) (GBVideoSerialize vMidFrame)).1.nextFrame
      ≠ vMidFrame.nextFrame := by
  decide

/-- C1 witness: the round trip at the concrete mid-frame core. -/
theorem C1_roundtrip_witness :
    0 ≤ vMidFrame.ly ∧ vMidFrame.ly < 65536 ∧ vMidFrame.mode < 4 ∧
    vMidFrame.palette.length = 64 ∧ C1Post initCore vMidFrame :=
  ⟨by decide, by decide, by decide, by decide,
   C1_roundtrip initCore vMidFrame (by decide) (by decide) (by decide)
     (by decide) (by decide) (by decide) (by decide) (by decide) (by decide)
     (by decide) (by decide) (by decide) (by decide)⟩

end GBVideo
